import Mathlib

/-!
Verification of the BCMTFAnalysisFacility component (BAT multi-template-fit
ensemble engine).  The repository provides the class interface in
`src/models/mtf/BCMTFAnalysisFacility.h`; the member-function bodies of the
ensemble engine are not part of the provided sources, so the engine's
behaviour is modelled from the specification (spec.md) on top of the data
model declared in the header.  The inline accessors `GetBCMTF` / `SetBCMTF`
are present verbatim in the header and are translated directly.

Modelling choices:
* histograms (`TH1D`) are bin-content lists over `ℚ`;
* the Fitter (`BCMTF`) is an abstract record of the interface the spec
  assigns to it (parameter count, channel binning, expected bin contents,
  measured data, a fit procedure, an initialization flag);
* the random generator (`TRandom3`) is an injected deterministic stream:
  a draw function indexed by stream position, with the facility tracking
  the current position, so that "number of random draws consumed" is the
  change of position;
* option strings are modelled in parsed form, as a list of tokens
  (the spec's recognized set is "nosyst", "mcmc", "data",
  "use-actual-data", "fluctuate-templates"; the header's doc comments call
  the template-fluctuation option "MC" and the use-real-data option
  "data" — the spec renames them for the reimplementation, and both
  "data" and "use-actual-data" select the real-data mode here);
* the facility also carries a fit-call counter, the call-counting stub the
  spec's testable properties ask for to observe "no Fitter call happened".
-/

/-- A histogram: the list of its bin contents. -/
abbrev Histogram := List ℚ

/-- Fit status recorded in a result row: `Ok` or `Failed`. -/
inductive FitStatus where
  | Ok : FitStatus
  | Failed : FitStatus
deriving DecidableEq, Repr

/-- Log levels, mirroring `BCLog::LogLevel` from the header. -/
inductive LogLevel where
  | debug | detail | summary | warning | error | nothing
deriving DecidableEq, Repr

/-- Modelled from the spec: the injected random-variate source.  Only the
Poisson draw is needed by the ensemble engine; `poisson pos mean` is the
value drawn at stream position `pos` for mean `mean`.  Determinism given a
fixed seed and call order is captured by `poisson` being a function. -/
structure RandomSource where
  poisson : ℕ → ℚ → ℚ

/-- Modelled from the spec: the external Fitter (`BCMTF`) interface the
engine consumes — parameter count, channel binning, expected bin contents
given a parameter vector, real measured data, the currently installed
dataset, a fit procedure returning (success, estimates), a single-channel
batch fit, and an initialization flag. -/
structure Fitter where
  parameterCount : ℕ
  channelBins : List ℕ
  expectation : ℕ → ℕ → List ℚ → ℚ
  data : List Histogram
  activeData : List Histogram
  fitResult : List Histogram → Bool × List ℚ
  singleChannelFit : ℕ → Bool → Bool → List ℚ
  initOk : Bool

/-- The facility state, following the private members of
`BCMTFAnalysisFacility`: the MTF object `fMTF`, the random generator
(represented by its stream position `fRandomPos`), the marginalization
flag and the log level; `fitCalls` is the spec's call-counting stub. -/
structure Facility where
  fMTF : Fitter
  fRandomPos : ℕ
  fFlagMarginalize : Bool
  fLogLevel : LogLevel
  fitCalls : ℕ

/-- `GetBCMTF`, translated from the header's inline body. -/
def GetBCMTF (fac : Facility) : Fitter :=
  fac.fMTF

/-- `SetBCMTF`, translated from the header's inline body. -/
def SetBCMTF (fac : Facility) (mtf : Fitter) : Facility :=
  { fac with fMTF := mtf }

/-- `SetFlagMarginalize`, translated from the header's inline body. -/
def SetFlagMarginalize (fac : Facility) (flag : Bool) : Facility :=
  { fac with fFlagMarginalize := flag }

/-- `GetLogLevel`, translated from the header's inline body. -/
def GetLogLevel (fac : Facility) : LogLevel :=
  fac.fLogLevel

/-- `SetLogLevel`, translated from the header's inline body. -/
def SetLogLevel (fac : Facility) (level : LogLevel) : Facility :=
  { fac with fLogLevel := level }

/-- The error taxonomy of the spec. -/
inductive EnsError where
  | ParameterCountMismatch
  | InvalidEnsembleCount
  | InvalidDistributionParameter
  | InsufficientRows
  | ParameterIndexOutOfRange
  | FitterInitializationError
deriving DecidableEq, Repr

/-- One row of a result table: the input parameters, the Fitter's
estimates, and the fit status. -/
structure ResultRow where
  parameters : List ℚ
  estimates : List ℚ
  status : FitStatus
deriving DecidableEq, Repr

/-- The recognized option tokens per the spec. -/
def recognizedTokens : List String :=
  ["nosyst", "mcmc", "data", "use-actual-data", "fluctuate-templates"]

/-- Whether a (parsed) options list carries a given token. -/
def hasToken (options : List String) (t : String) : Bool :=
  decide (t ∈ options)

/-- Modelled from the spec: the use-real-data mode is selected by the
token the spec calls "use-actual-data" (the header doc calls it "data";
both are recognized). -/
def optUseActualData (options : List String) : Bool :=
  hasToken options "use-actual-data" || hasToken options "data"

/-- Modelled from the spec: template-statistical fluctuation is selected
by the token the spec calls "fluctuate-templates" (the header doc calls
it "MC"). -/
def optFluctuate (options : List String) : Bool :=
  hasToken options "fluctuate-templates"

/-- The "nosyst" batch option. -/
def optNoSyst (options : List String) : Bool :=
  hasToken options "nosyst"

/-- The "mcmc" batch option. -/
def optMcmc (options : List String) : Bool :=
  hasToken options "mcmc"

/-- Modelled from the spec: fill the `nbins` bins of channel `ch`
starting at bin `bin`, drawing for each bin a Poisson count around the
expected (template-weighted) bin content; one draw per bin, advancing the
stream position. Returns the histogram and the new stream position. -/
def fillBins (R : RandomSource) (F : Fitter) (params : List ℚ) (ch : ℕ) :
    ℕ → ℕ → ℕ → Histogram × ℕ
  | 0, _, pos => ([], pos)
  | nbins + 1, bin, pos =>
    (R.poisson pos (F.expectation ch bin params) ::
        (fillBins R F params ch nbins (bin + 1) (pos + 1)).1,
      (fillBins R F params ch nbins (bin + 1) (pos + 1)).2)

/-- Modelled from the spec: build one histogram per channel, channel
index rising, threading the stream position. -/
def fillChannels (R : RandomSource) (F : Fitter) (params : List ℚ) :
    List ℕ → ℕ → ℕ → List Histogram × ℕ
  | [], _, pos => ([], pos)
  | nbins :: rest, ch, pos =>
    ((fillBins R F params ch nbins 0 pos).1 ::
        (fillChannels R F params rest (ch + 1) (fillBins R F params ch nbins 0 pos).2).1,
      (fillChannels R F params rest (ch + 1) (fillBins R F params ch nbins 0 pos).2).2)

/-- Modelled from the spec: the core of `buildOne`.  Under the
use-real-data mode the measured histograms are returned unchanged and the
stream position is untouched; otherwise every bin of every channel is a
Poisson draw around the expected content. -/
def buildOneCore (R : RandomSource) (F : Fitter) (params : List ℚ)
    (options : List String) (pos : ℕ) : List Histogram × ℕ :=
  if optUseActualData options then (F.data, pos)
  else fillChannels R F params F.channelBins 0 pos

/-- Modelled from the spec: `BuildEnsemble` (the spec's `buildOne`).
Validates the parameter count before any draw; on success returns the
synthetic dataset and advances the facility's stream position. -/
def BuildEnsemble (R : RandomSource) (fac : Facility) (parameters : List ℚ)
    (options : List String) : Except EnsError (List Histogram) × Facility :=
  if parameters.length ≠ fac.fMTF.parameterCount then
    (.error .ParameterCountMismatch, fac)
  else
    (.ok (buildOneCore R fac.fMTF parameters options fac.fRandomPos).1,
      { fac with fRandomPos := (buildOneCore R fac.fMTF parameters options fac.fRandomPos).2 })

/-- Modelled from the spec: repeat the `buildOne` core `n` times with
fresh draws, threading the stream position. -/
def buildRepeat (R : RandomSource) (F : Fitter) (params : List ℚ)
    (options : List String) : ℕ → ℕ → List (List Histogram) × ℕ
  | 0, pos => ([], pos)
  | n + 1, pos =>
    ((buildOneCore R F params options pos).1 ::
        (buildRepeat R F params options n (buildOneCore R F params options pos).2).1,
      (buildRepeat R F params options n (buildOneCore R F params options pos).2).2)

/-- Modelled from the spec: `BuildEnsembles` from a fixed parameter
vector (the spec's `buildMany`): eager validation of the parameter count
and the ensemble count, then `nensembles` independent datasets. -/
def BuildEnsembles (R : RandomSource) (fac : Facility) (parameters : List ℚ)
    (nensembles : ℕ) (options : List String) :
    Except EnsError (List (List Histogram)) × Facility :=
  if parameters.length ≠ fac.fMTF.parameterCount then
    (.error .ParameterCountMismatch, fac)
  else if nensembles = 0 then
    (.error .InvalidEnsembleCount, fac)
  else
    (.ok (buildRepeat R fac.fMTF parameters options nensembles fac.fRandomPos).1,
      { fac with
          fRandomPos := (buildRepeat R fac.fMTF parameters options nensembles fac.fRandomPos).2 })

/-- Modelled from the spec: build one dataset per parameter row,
in row order, threading the stream position. -/
def buildRowsLoop (R : RandomSource) (F : Fitter) (options : List String) :
    List (List ℚ) → ℕ → List (List Histogram) × ℕ
  | [], pos => ([], pos)
  | r :: rs, pos =>
    ((buildOneCore R F r options pos).1 ::
        (buildRowsLoop R F options rs (buildOneCore R F r options pos).2).1,
      (buildRowsLoop R F options rs (buildOneCore R F r options pos).2).2)

/-- Modelled from the spec: `BuildEnsembles` from a table of parameter
rows (the spec's `buildManyFromTable`): fails with `InsufficientRows`
when the table has fewer than `offset + nensembles` rows, validates the
used rows' parameter counts eagerly, then builds one dataset per row
`offset .. offset + nensembles - 1` in order. -/
def BuildEnsemblesFromTable (R : RandomSource) (fac : Facility)
    (table : List (List ℚ)) (nensembles offset : ℕ) (options : List String) :
    Except EnsError (List (List Histogram)) × Facility :=
  if table.length < offset + nensembles then
    (.error .InsufficientRows, fac)
  else if ∃ r ∈ (table.drop offset).take nensembles,
      r.length ≠ fac.fMTF.parameterCount then
    (.error .ParameterCountMismatch, fac)
  else
    (.ok (buildRowsLoop R fac.fMTF options ((table.drop offset).take nensembles) fac.fRandomPos).1,
      { fac with
          fRandomPos :=
            (buildRowsLoop R fac.fMTF options ((table.drop offset).take nensembles) fac.fRandomPos).2 })

/-- Modelled from the spec: statistically fluctuate the Fitter's own
templates ("fluctuate-templates"/"MC" mode).  The precise fluctuation law
belongs to the Fitter's internals (out of scope); it is abstracted as one
draw perturbing the expected shapes, consuming one stream position. -/
def fluctuateTemplates (R : RandomSource) (F : Fitter) (pos : ℕ) : Fitter × ℕ :=
  ({ F with expectation := fun ch bin ps => F.expectation ch bin ps + R.poisson pos 1 },
    pos + 1)

/-- Modelled from the spec: one ensemble trial of the test runner —
optionally fluctuate the templates, build the synthetic dataset,
temporarily install it on the Fitter, run the fit (counted by the
call-counting stub), record a result row, and restore the Fitter's prior
state before returning. -/
def runTrial (R : RandomSource) (fac : Facility) (params : List ℚ)
    (options : List String) : ResultRow × Facility :=
  let fluct : Fitter × ℕ :=
    if optFluctuate options then fluctuateTemplates R fac.fMTF fac.fRandomPos
    else (fac.fMTF, fac.fRandomPos)
  let built : List Histogram × ℕ := buildOneCore R fluct.1 params options fluct.2
  let facInstalled : Facility :=
    { fac with fMTF := { fluct.1 with activeData := built.1 }, fRandomPos := built.2 }
  let fit : Bool × List ℚ := facInstalled.fMTF.fitResult facInstalled.fMTF.activeData
  let facCounted : Facility := { facInstalled with fitCalls := facInstalled.fitCalls + 1 }
  let facRestored : Facility := { facCounted with fMTF := fac.fMTF }
  ({ parameters := params, estimates := fit.2,
      status := if fit.1 then FitStatus.Ok else FitStatus.Failed },
    facRestored)

/-- Modelled from the spec: the per-trial loop of the ensemble test with
a fixed parameter vector; one row per trial, appended in trial order. -/
def runLoop (R : RandomSource) (params : List ℚ) (options : List String) :
    ℕ → Facility → List ResultRow × Facility
  | 0, fac => ([], fac)
  | n + 1, fac =>
    ((runTrial R fac params options).1 ::
        (runLoop R params options n (runTrial R fac params options).2).1,
      (runLoop R params options n (runTrial R fac params options).2).2)

/-- Modelled from the spec: `PerformEnsembleTest` from a fixed parameter
vector (the spec's `run`): eager validation (parameter count, ensemble
count, Fitter initialization) before any draw or row, then one trial per
ensemble; a failing fit only degrades that trial's row status. -/
def PerformEnsembleTest (R : RandomSource) (fac : Facility) (parameters : List ℚ)
    (nensembles : ℕ) (options : List String) :
    Except EnsError (List ResultRow) × Facility :=
  if parameters.length ≠ fac.fMTF.parameterCount then
    (.error .ParameterCountMismatch, fac)
  else if nensembles = 0 then
    (.error .InvalidEnsembleCount, fac)
  else if fac.fMTF.initOk then
    (.ok (runLoop R parameters options nensembles fac).1,
      (runLoop R parameters options nensembles fac).2)
  else
    (.error .FitterInitializationError, fac)

/-- Modelled from the spec: the per-row loop of the ensemble test with a
table of parameter rows. -/
def runRowsLoop (R : RandomSource) (options : List String) :
    List (List ℚ) → Facility → List ResultRow × Facility
  | [], fac => ([], fac)
  | r :: rs, fac =>
    ((runTrial R fac r options).1 ::
        (runRowsLoop R options rs (runTrial R fac r options).2).1,
      (runRowsLoop R options rs (runTrial R fac r options).2).2)

/-- Modelled from the spec: `PerformEnsembleTest` from a table of
parameter rows with a start offset: fails with `InsufficientRows` when
the table has fewer than `start + nensembles` rows, validates the used
rows eagerly, then runs one trial per row `start .. start + nensembles - 1`
in order. -/
def PerformEnsembleTestFromTable (R : RandomSource) (fac : Facility)
    (table : List (List ℚ)) (nensembles start : ℕ) (options : List String) :
    Except EnsError (List ResultRow) × Facility :=
  if table.length < start + nensembles then
    (.error .InsufficientRows, fac)
  else if ∃ r ∈ (table.drop start).take nensembles,
      r.length ≠ fac.fMTF.parameterCount then
    (.error .ParameterCountMismatch, fac)
  else if fac.fMTF.initOk then
    (.ok (runRowsLoop R options ((table.drop start).take nensembles) fac).1,
      (runRowsLoop R options ((table.drop start).take nensembles) fac).2)
  else
    (.error .FitterInitializationError, fac)

/-- Modelled from the spec: the per-grid-value loop of the calibration
sweep — for each value in input order, copy the defaults, overwrite the
swept index, run the ensemble test, and record `(value, table)`. -/
def sweepLoop (R : RandomSource) (defaults : List ℚ) (idx nensembles : ℕ) :
    List ℚ → Facility → Except EnsError (List (ℚ × List ResultRow)) × Facility
  | [], fac => (.ok [], fac)
  | v :: vs, fac =>
    match PerformEnsembleTest R fac (defaults.set idx v) nensembles [] with
    | (.error e, fac1) => (.error e, fac1)
    | (.ok tbl, fac1) =>
      match sweepLoop R defaults idx nensembles vs fac1 with
      | (.error e, fac2) => (.error e, fac2)
      | (.ok rest, fac2) => (.ok ((v, tbl) :: rest), fac2)

/-- Modelled from the spec: `PerformCalibrationAnalysis` (the spec's
`sweep`): the swept index must lie in `[0, len(defaults))` (`index` is a
C++ `int`, hence `ℤ` here), the defaults must match the Fitter's
parameter count, the Fitter must initialize; then the values are
processed strictly in input order. -/
def PerformCalibrationAnalysis (R : RandomSource) (fac : Facility)
    (defaults : List ℚ) (index : ℤ) (values : List ℚ) (nensembles : ℕ) :
    Except EnsError (List (ℚ × List ResultRow)) × Facility :=
  if index < 0 ∨ (defaults.length : ℤ) ≤ index then
    (.error .ParameterIndexOutOfRange, fac)
  else if defaults.length ≠ fac.fMTF.parameterCount then
    (.error .ParameterCountMismatch, fac)
  else if fac.fMTF.initOk then
    sweepLoop R defaults index.toNat nensembles values fac
  else
    (.error .FitterInitializationError, fac)

/-- Modelled from the spec: `PerformSingleChannelAnalyses` (the batch
controller) — one deterministic fit per channel, honouring the "nosyst"
and "mcmc" options and the marginalization flag; no randomness. -/
def PerformSingleChannelAnalyses (fac : Facility) (options : List String) :
    List (List ℚ) :=
  (List.range fac.fMTF.channelBins.length).map fun ch =>
    fac.fMTF.singleChannelFit ch (optNoSyst options)
      (optMcmc options || fac.fFlagMarginalize)

/-! ## Helper lemmas -/

theorem buildRepeat_length (R : RandomSource) (F : Fitter) (params : List ℚ)
    (options : List String) :
    ∀ n pos, ((buildRepeat R F params options n pos).1).length = n := by
  intro n
  induction n with
  | zero => intro pos; rfl
  | succ k ih =>
    intro pos
    simp [buildRepeat, ih]

theorem runTrial_fMTF (R : RandomSource) (fac : Facility) (params : List ℚ)
    (options : List String) :
    (runTrial R fac params options).2.fMTF = fac.fMTF := rfl

theorem runTrial_flag (R : RandomSource) (fac : Facility) (params : List ℚ)
    (options : List String) :
    (runTrial R fac params options).2.fFlagMarginalize = fac.fFlagMarginalize := rfl

theorem runTrial_parameters (R : RandomSource) (fac : Facility) (params : List ℚ)
    (options : List String) :
    (runTrial R fac params options).1.parameters = params := rfl

theorem runLoop_length (R : RandomSource) (params : List ℚ) (options : List String) :
    ∀ n fac, ((runLoop R params options n fac).1).length = n := by
  intro n
  induction n with
  | zero => intro fac; rfl
  | succ k ih =>
    intro fac
    simp [runLoop, ih]

theorem runLoop_fMTF (R : RandomSource) (params : List ℚ) (options : List String) :
    ∀ n fac, ((runLoop R params options n fac).2).fMTF = fac.fMTF := by
  intro n
  induction n with
  | zero => intro fac; rfl
  | succ k ih =>
    intro fac
    simp [runLoop, ih, runTrial_fMTF]

theorem perfTest_ok (R : RandomSource) (fac : Facility) (params : List ℚ)
    (n : ℕ) (options : List String)
    (hlen : params.length = fac.fMTF.parameterCount) (hn : n ≠ 0)
    (hinit : fac.fMTF.initOk = true) :
    PerformEnsembleTest R fac params n options
      = (.ok (runLoop R params options n fac).1, (runLoop R params options n fac).2) := by
  unfold PerformEnsembleTest
  rw [if_neg (by simp [hlen]), if_neg hn, if_pos hinit]

theorem perfTest_fMTF (R : RandomSource) (fac : Facility) (params : List ℚ)
    (n : ℕ) (options : List String) :
    (PerformEnsembleTest R fac params n options).2.fMTF = fac.fMTF := by
  unfold PerformEnsembleTest
  split
  · rfl
  · split
    · rfl
    · split
      · exact runLoop_fMTF R params options n fac
      · rfl

theorem buildRowsLoop_length (R : RandomSource) (F : Fitter) (options : List String) :
    ∀ rows pos, ((buildRowsLoop R F options rows pos).1).length = rows.length := by
  intro rows
  induction rows with
  | nil => intro pos; rfl
  | cons r rs ih =>
    intro pos
    simp [buildRowsLoop, ih]

theorem buildRowsLoop_rows (R : RandomSource) (F : Fitter) (options : List String) :
    ∀ rows pos,
      List.Forall₂ (fun r d => ∃ p, d = (buildOneCore R F r options p).1)
        rows ((buildRowsLoop R F options rows pos).1) := by
  intro rows
  induction rows with
  | nil => intro pos; exact List.Forall₂.nil
  | cons r rs ih =>
    intro pos
    simp only [buildRowsLoop]
    exact List.Forall₂.cons ⟨pos, rfl⟩ (ih _)

theorem runRowsLoop_length (R : RandomSource) (options : List String) :
    ∀ rows fac, ((runRowsLoop R options rows fac).1).length = rows.length := by
  intro rows
  induction rows with
  | nil => intro fac; rfl
  | cons r rs ih =>
    intro fac
    simp [runRowsLoop, ih]

theorem runRowsLoop_rows (R : RandomSource) (options : List String) :
    ∀ rows fac,
      List.Forall₂ (fun r row => row.parameters = r)
        rows ((runRowsLoop R options rows fac).1) := by
  intro rows
  induction rows with
  | nil => intro fac; exact List.Forall₂.nil
  | cons r rs ih =>
    intro fac
    simp only [runRowsLoop]
    exact List.Forall₂.cons (runTrial_parameters R fac r options) (ih _)

theorem buildEnsembles_fst_congr (R : RandomSource) (fac fac2 : Facility)
    (params : List ℚ) (n : ℕ) (options : List String)
    (hm : fac2.fMTF = fac.fMTF) (hp : fac2.fRandomPos = fac.fRandomPos) :
    (BuildEnsembles R fac2 params n options).1
      = (BuildEnsembles R fac params n options).1 := by
  by_cases h1 : params.length ≠ fac.fMTF.parameterCount
  · simp [BuildEnsembles, hm, h1]
  · by_cases h2 : n = 0 <;> simp [BuildEnsembles, hm, hp, h1, h2]

theorem optUseActualData_nil : optUseActualData [] = false := rfl

theorem optFluctuate_nil : optFluctuate [] = false := rfl

theorem optNoSyst_nil : optNoSyst [] = false := rfl

theorem optMcmc_nil : optMcmc [] = false := rfl

theorem opts_unrecognized_false (options : List String)
    (h : ∀ t ∈ options, t ∉ recognizedTokens) :
    optUseActualData options = false ∧ optFluctuate options = false
      ∧ optNoSyst options = false ∧ optMcmc options = false := by
  have h1 : "use-actual-data" ∉ options := fun hm => h _ hm (by decide)
  have h2 : "data" ∉ options := fun hm => h _ hm (by decide)
  have h3 : "fluctuate-templates" ∉ options := fun hm => h _ hm (by decide)
  have h4 : "nosyst" ∉ options := fun hm => h _ hm (by decide)
  have h5 : "mcmc" ∉ options := fun hm => h _ hm (by decide)
  refine ⟨?_, ?_, ?_, ?_⟩ <;>
    simp [optUseActualData, optFluctuate, optNoSyst, optMcmc, hasToken, h1, h2, h3, h4, h5]

theorem buildOneCore_opts (R : RandomSource) (F : Fitter) (params : List ℚ)
    (options : List String) (hu : optUseActualData options = false) :
    ∀ pos, buildOneCore R F params options pos = buildOneCore R F params [] pos := by
  intro pos
  simp [buildOneCore, hu, optUseActualData_nil]

theorem buildRepeat_opts (R : RandomSource) (F : Fitter) (params : List ℚ)
    (options : List String) (hu : optUseActualData options = false) :
    ∀ n pos, buildRepeat R F params options n pos = buildRepeat R F params [] n pos := by
  intro n
  induction n with
  | zero => intro pos; rfl
  | succ k ih =>
    intro pos
    simp [buildRepeat, buildOneCore_opts R F params options hu, ih]

theorem buildRowsLoop_opts (R : RandomSource) (F : Fitter)
    (options : List String) (hu : optUseActualData options = false) :
    ∀ rows pos, buildRowsLoop R F options rows pos = buildRowsLoop R F [] rows pos := by
  intro rows
  induction rows with
  | nil => intro pos; rfl
  | cons r rs ih =>
    intro pos
    simp [buildRowsLoop, buildOneCore_opts R F r options hu, ih]

theorem runTrial_opts (R : RandomSource) (fac : Facility) (params : List ℚ)
    (options : List String) (hu : optUseActualData options = false)
    (hf : optFluctuate options = false) :
    runTrial R fac params options = runTrial R fac params [] := by
  simp [runTrial, buildOneCore, hu, hf, optUseActualData_nil, optFluctuate_nil]

theorem runLoop_opts (R : RandomSource) (params : List ℚ)
    (options : List String) (hu : optUseActualData options = false)
    (hf : optFluctuate options = false) :
    ∀ n fac, runLoop R params options n fac = runLoop R params [] n fac := by
  intro n
  induction n with
  | zero => intro fac; rfl
  | succ k ih =>
    intro fac
    simp [runLoop, runTrial_opts R fac params options hu hf, ih]

theorem runRowsLoop_opts (R : RandomSource) (options : List String)
    (hu : optUseActualData options = false) (hf : optFluctuate options = false) :
    ∀ rows fac, runRowsLoop R options rows fac = runRowsLoop R [] rows fac := by
  intro rows
  induction rows with
  | nil => intro fac; rfl
  | cons r rs ih =>
    intro fac
    simp [runRowsLoop, runTrial_opts R fac r options hu hf, ih]

theorem sweepLoop_ok (R : RandomSource) (defaults : List ℚ) (idx n : ℕ) (hn : n ≠ 0) :
    ∀ (values : List ℚ) (fac : Facility),
      fac.fMTF.initOk = true →
      defaults.length = fac.fMTF.parameterCount →
      ∃ L, (sweepLoop R defaults idx n values fac).1 = .ok L
        ∧ L.map Prod.fst = values
        ∧ List.Forall₂
            (fun v p => p.1 = v ∧ p.2.length = n
              ∧ ∃ g : Facility, g.fMTF = fac.fMTF
                  ∧ (PerformEnsembleTest R g (defaults.set idx v) n []).1 = .ok p.2)
            values L
        ∧ (sweepLoop R defaults idx n values fac).2.fMTF = fac.fMTF := by
  intro values
  induction values with
  | nil =>
    intro fac hinit hlen
    exact ⟨[], rfl, rfl, List.Forall₂.nil, rfl⟩
  | cons v vs ih =>
    intro fac hinit hlen
    have hlen2 : (defaults.set idx v).length = fac.fMTF.parameterCount := by
      simpa using hlen
    have hok := perfTest_ok R fac (defaults.set idx v) n [] hlen2 hn hinit
    have hfmtf1 : ((runLoop R (defaults.set idx v) [] n fac).2).fMTF = fac.fMTF :=
      runLoop_fMTF R (defaults.set idx v) [] n fac
    obtain ⟨L, hL1, hL2, hL3, hL4⟩ :=
      ih ((runLoop R (defaults.set idx v) [] n fac).2)
        (by rw [hfmtf1]; exact hinit) (by rw [hfmtf1]; exact hlen)
    obtain ⟨s2, hres2⟩ :
        ∃ s2, sweepLoop R defaults idx n vs ((runLoop R (defaults.set idx v) [] n fac).2)
          = (Except.ok L, s2) := by
      refine ⟨(sweepLoop R defaults idx n vs ((runLoop R (defaults.set idx v) [] n fac).2)).2, ?_⟩
      conv_lhs => rw [show sweepLoop R defaults idx n vs ((runLoop R (defaults.set idx v) [] n fac).2)
        = ((sweepLoop R defaults idx n vs ((runLoop R (defaults.set idx v) [] n fac).2)).1,
           (sweepLoop R defaults idx n vs ((runLoop R (defaults.set idx v) [] n fac).2)).2) from rfl]
      rw [hL1]
    have hstep : sweepLoop R defaults idx n (v :: vs) fac
        = (.ok ((v, (runLoop R (defaults.set idx v) [] n fac).1) :: L), s2) := by
      simp only [sweepLoop, hok, hres2]
    have hs2 : s2.fMTF = fac.fMTF := by
      have := congrArg Prod.snd hres2
      simp only [Prod.snd] at this
      rw [← this]
      exact hL4.trans hfmtf1
    refine ⟨(v, (runLoop R (defaults.set idx v) [] n fac).1) :: L, ?_, ?_, ?_, ?_⟩
    · rw [hstep]
    · simp [hL2]
    · refine List.Forall₂.cons ⟨rfl, runLoop_length R (defaults.set idx v) [] n fac, fac, rfl, ?_⟩ ?_
      · rw [hok]
      · refine hL3.imp fun a b hab => ⟨hab.1, hab.2.1, ?_⟩
        exact hab.2.2.elim fun g hg => ⟨g, hg.1.trans hfmtf1, hg.2⟩
    · rw [hstep]
      exact hs2

/-! ## Concrete sample instances -/

/-- A concrete Fitter with two parameters and two channels (2 and 1 bins). -/
def sampleFitter : Fitter where
  parameterCount := 2
  channelBins := [2, 1]
  expectation := fun ch bin ps => ps.getD 0 0 + (ch : ℚ) + (bin : ℚ)
  data := [[5, 6], [7]]
  activeData := [[5, 6], [7]]
  fitResult := fun ds => (true, [(ds.headD []).headD 0, 1])
  singleChannelFit := fun ch ns mc =>
    [(ch : ℚ), if ns then 1 else 0, if mc then 1 else 0]
  initOk := true

/-- A concrete deterministic random source. -/
def sampleRandom : RandomSource where
  poisson := fun pos mean => mean + (pos : ℚ)

/-- A concrete facility over `sampleFitter`. -/
def sampleFacility : Facility where
  fMTF := sampleFitter
  fRandomPos := 0
  fFlagMarginalize := false
  fLogLevel := LogLevel.summary
  fitCalls := 0

/-- A facility agreeing with `sampleFacility` on the Fitter and the random
stream position but differing in flags and counters. -/
def sampleFacility2 : Facility where
  fMTF := sampleFitter
  fRandomPos := 0
  fFlagMarginalize := true
  fLogLevel := LogLevel.debug
  fitCalls := 5

/-- A concrete parameter-row table. -/
def sampleTable : List (List ℚ) := [[1, 2], [3, 4], [5, 6]]

/-! ## Claim theorems -/

/-- C1: for every ParameterVector whose length matches the Fitter's
declared parameter count, `BuildEnsemble` (the spec's `buildOne`) called
with options including "use-actual-data" returns the real measured
histograms bit-identically, deterministically (the result does not depend
on the random source `R`), and consumes zero random draws (the facility,
including its random stream position, is returned unchanged). -/
theorem buildEnsemble_useActualData_returns_data (R : RandomSource) (fac : Facility)
    (parameters : List ℚ) (options : List String)
    (hlen : parameters.length = fac.fMTF.parameterCount)
    (hopt : "use-actual-data" ∈ options) :
    BuildEnsemble R fac parameters options = (.ok fac.fMTF.data, fac) := by
  have hu : optUseActualData options = true := by
    simp [optUseActualData, hasToken, hopt]
  unfold BuildEnsemble
  rw [if_neg (by simp [hlen])]
  simp [buildOneCore, hu]

/-- Witness for C1 at a concrete input. -/
theorem buildEnsemble_useActualData_witness :
    ([(1 : ℚ), 2].length = sampleFacility.fMTF.parameterCount
        ∧ "use-actual-data" ∈ ["use-actual-data"])
      ∧ BuildEnsemble sampleRandom sampleFacility [1, 2] ["use-actual-data"]
          = (.ok sampleFacility.fMTF.data, sampleFacility) :=
  ⟨⟨by decide, by decide⟩,
    buildEnsemble_useActualData_returns_data sampleRandom sampleFacility [1, 2]
      ["use-actual-data"] (by decide) (by decide)⟩

/-- C2: for every valid ParameterVector and every `nensembles ≥ 1`,
`PerformEnsembleTest` (the spec's `run`) returns a table with exactly
`nensembles` rows, each row's status `Ok` or `Failed` — this holds for
every fit procedure, so a per-trial fit failure never aborts the loop —
while a Fitter initialization failure aborts the whole run with
`FitterInitializationError` before any row is written (the facility is
returned unchanged). -/
theorem performEnsembleTest_row_semantics (R : RandomSource) (fac : Facility)
    (parameters : List ℚ) (nensembles : ℕ) (options : List String)
    (hlen : parameters.length = fac.fMTF.parameterCount)
    (hn : 1 ≤ nensembles) :
    (fac.fMTF.initOk = true →
        ∃ tbl, (PerformEnsembleTest R fac parameters nensembles options).1 = .ok tbl
          ∧ tbl.length = nensembles
          ∧ ∀ r ∈ tbl, r.status = FitStatus.Ok ∨ r.status = FitStatus.Failed)
      ∧ (fac.fMTF.initOk = false →
          PerformEnsembleTest R fac parameters nensembles options
            = (.error .FitterInitializationError, fac)) := by
  constructor
  · intro hinit
    refine ⟨(runLoop R parameters options nensembles fac).1, ?_,
      runLoop_length R parameters options nensembles fac, ?_⟩
    · rw [perfTest_ok R fac parameters nensembles options hlen (by omega) hinit]
    · intro r _
      rcases hs : r.status
      · exact Or.inl rfl
      · exact Or.inr rfl
  · intro hinit
    unfold PerformEnsembleTest
    rw [if_neg (by simp [hlen]), if_neg (by omega), if_neg (by simp [hinit])]

/-- Witness for C2 at a concrete input. -/
theorem performEnsembleTest_row_semantics_witness :
    ([(1 : ℚ), 2].length = sampleFacility.fMTF.parameterCount ∧ 1 ≤ 3)
      ∧ ((sampleFacility.fMTF.initOk = true →
          ∃ tbl, (PerformEnsembleTest sampleRandom sampleFacility [1, 2] 3 []).1 = .ok tbl
            ∧ tbl.length = 3
            ∧ ∀ r ∈ tbl, r.status = FitStatus.Ok ∨ r.status = FitStatus.Failed)
        ∧ (sampleFacility.fMTF.initOk = false →
            PerformEnsembleTest sampleRandom sampleFacility [1, 2] 3 []
              = (.error .FitterInitializationError, sampleFacility))) :=
  ⟨⟨by decide, by decide⟩,
    performEnsembleTest_row_semantics sampleRandom sampleFacility [1, 2] 3 []
      (by decide) (by decide)⟩

/-- C3: for every valid ParameterVector and every `nensembles ≥ 1`,
`BuildEnsembles` (the spec's `buildMany`) returns exactly `nensembles`
datasets; and two invocations with identical arguments from facilities
agreeing on the Fitter and the random stream position (a fresh identical
seed) produce identical datasets — two-run determinism. -/
theorem buildEnsembles_count_and_determinism (R : RandomSource) (fac fac2 : Facility)
    (parameters : List ℚ) (nensembles : ℕ) (options : List String)
    (hlen : parameters.length = fac.fMTF.parameterCount)
    (hn : 1 ≤ nensembles)
    (hm : fac2.fMTF = fac.fMTF) (hp : fac2.fRandomPos = fac.fRandomPos) :
    (∃ ds, (BuildEnsembles R fac parameters nensembles options).1 = .ok ds
        ∧ ds.length = nensembles)
      ∧ (BuildEnsembles R fac2 parameters nensembles options).1
          = (BuildEnsembles R fac parameters nensembles options).1 := by
  constructor
  · refine ⟨(buildRepeat R fac.fMTF parameters options nensembles fac.fRandomPos).1, ?_,
      buildRepeat_length R fac.fMTF parameters options nensembles fac.fRandomPos⟩
    unfold BuildEnsembles
    rw [if_neg (by simp [hlen]), if_neg (by omega)]
  · exact buildEnsembles_fst_congr R fac fac2 parameters nensembles options hm hp

/-- Witness for C3 at a concrete input. -/
theorem buildEnsembles_count_and_determinism_witness :
    ([(1 : ℚ), 2].length = sampleFacility.fMTF.parameterCount ∧ 1 ≤ 2
        ∧ sampleFacility2.fMTF = sampleFacility.fMTF
        ∧ sampleFacility2.fRandomPos = sampleFacility.fRandomPos)
      ∧ ((∃ ds, (BuildEnsembles sampleRandom sampleFacility [1, 2] 2 []).1 = .ok ds
            ∧ ds.length = 2)
        ∧ (BuildEnsembles sampleRandom sampleFacility2 [1, 2] 2 []).1
            = (BuildEnsembles sampleRandom sampleFacility [1, 2] 2 []).1) :=
  ⟨⟨by decide, by decide, rfl, rfl⟩,
    buildEnsembles_count_and_determinism sampleRandom sampleFacility sampleFacility2
      [1, 2] 2 [] (by decide) (by decide) rfl rfl⟩

/-- C8: within the ensemble test each trial's synthetic dataset is
installed on the Fitter only temporarily: a single trial (`runTrial`) and
the whole run (`PerformEnsembleTest`) return the facility with its Fitter
— channel definitions, template shapes and prior dataset state included —
exactly as it was, and ensemble building (`BuildEnsemble`) never mutates
the Fitter either. -/
theorem performEnsembleTest_restores_fitter (R : RandomSource) (fac : Facility)
    (parameters : List ℚ) (n : ℕ) (options : List String) :
    (runTrial R fac parameters options).2.fMTF = fac.fMTF
      ∧ (PerformEnsembleTest R fac parameters n options).2.fMTF = fac.fMTF
      ∧ (BuildEnsemble R fac parameters options).2.fMTF = fac.fMTF := by
  refine ⟨rfl, perfTest_fMTF R fac parameters n options, ?_⟩
  unfold BuildEnsemble
  split <;> rfl

/-- C10: `SetBCMTF` followed by `GetBCMTF` returns exactly the stored MTF
pointer, and `SetBCMTF` changes nothing else: the marginalize flag, the
log level, the random generator state and the fit-call counter are all
unchanged.  Translated directly from the header's inline bodies. -/
theorem setBCMTF_getBCMTF_roundtrip (fac : Facility) (mtf : Fitter) :
    GetBCMTF (SetBCMTF fac mtf) = mtf
      ∧ (SetBCMTF fac mtf).fFlagMarginalize = fac.fFlagMarginalize
      ∧ (SetBCMTF fac mtf).fLogLevel = fac.fLogLevel
      ∧ (SetBCMTF fac mtf).fRandomPos = fac.fRandomPos
      ∧ (SetBCMTF fac mtf).fitCalls = fac.fitCalls :=
  ⟨rfl, rfl, rfl, rfl, rfl⟩

/-- C4: `PerformCalibrationAnalysis` (the spec's `sweep`) processes the
grid values strictly in input order without reordering — the recorded
first components are exactly `values` — and for each value `v` it runs
the ensemble test on a copy of the defaults with index `paramIndex`
overwritten by `v`, recording `(v, table)`; the result holds exactly one
table per grid value, each with exactly `nensembles` rows. -/
theorem performCalibrationAnalysis_grid_order (R : RandomSource) (fac : Facility)
    (defaults : List ℚ) (index : ℤ) (values : List ℚ) (nensembles : ℕ)
    (h0 : 0 ≤ index) (h1 : index < (defaults.length : ℤ))
    (hlen : defaults.length = fac.fMTF.parameterCount)
    (hinit : fac.fMTF.initOk = true) (hn : 1 ≤ nensembles) :
    ∃ L, (PerformCalibrationAnalysis R fac defaults index values nensembles).1 = .ok L
      ∧ L.map Prod.fst = values
      ∧ List.Forall₂
          (fun v p => p.1 = v ∧ p.2.length = nensembles
            ∧ ∃ g : Facility, g.fMTF = fac.fMTF
                ∧ (PerformEnsembleTest R g (defaults.set index.toNat v) nensembles []).1
                    = .ok p.2)
          values L := by
  obtain ⟨L, hA, hB, hC, _⟩ :=
    sweepLoop_ok R defaults index.toNat nensembles (by omega) values fac hinit hlen
  refine ⟨L, ?_, hB, hC⟩
  unfold PerformCalibrationAnalysis
  rw [if_neg (by omega), if_neg (by simp [hlen]), if_pos hinit]
  exact hA

/-- Witness for C4 at a concrete input. -/
theorem performCalibrationAnalysis_grid_order_witness :
    ((0 : ℤ) ≤ 1 ∧ (1 : ℤ) < ([(1 : ℚ), 2].length : ℤ)
        ∧ [(1 : ℚ), 2].length = sampleFacility.fMTF.parameterCount
        ∧ sampleFacility.fMTF.initOk = true ∧ 1 ≤ 1)
      ∧ ∃ L, (PerformCalibrationAnalysis sampleRandom sampleFacility [1, 2] 1 [3, 4] 1).1
            = .ok L
          ∧ L.map Prod.fst = [3, 4]
          ∧ List.Forall₂
              (fun v p => p.1 = v ∧ p.2.length = 1
                ∧ ∃ g : Facility, g.fMTF = sampleFacility.fMTF
                    ∧ (PerformEnsembleTest sampleRandom g ([(1 : ℚ), 2].set (1 : ℤ).toNat v) 1 []).1
                        = .ok p.2)
              [3, 4] L :=
  ⟨⟨by decide, by decide, by decide, by decide, by decide⟩,
    performCalibrationAnalysis_grid_order sampleRandom sampleFacility [1, 2] 1 [3, 4] 1
      (by decide) (by decide) (by decide) (by decide) (by decide)⟩

/-- C5: the table-driven builders fail with `InsufficientRows` when the
input table has fewer than `offset + nensembles` rows; otherwise (with
matching parameter counts) `BuildEnsembles` from a table produces exactly
`nensembles` datasets, one per row `offset .. offset + nensembles - 1`
(`(table.drop offset).take nensembles`) in row order, and
`PerformEnsembleTest` with a start offset produces exactly `nensembles`
rows whose recorded parameters are those table rows in order. -/
theorem buildEnsemblesFromTable_rows_semantics (R : RandomSource) (fac : Facility)
    (table : List (List ℚ)) (nensembles offset : ℕ) (options : List String) :
    (table.length < offset + nensembles →
        BuildEnsemblesFromTable R fac table nensembles offset options
            = (.error .InsufficientRows, fac)
          ∧ PerformEnsembleTestFromTable R fac table nensembles offset options
              = (.error .InsufficientRows, fac))
      ∧ (offset + nensembles ≤ table.length →
          (∀ r ∈ (table.drop offset).take nensembles,
              r.length = fac.fMTF.parameterCount) →
          (∃ ds, (BuildEnsemblesFromTable R fac table nensembles offset options).1 = .ok ds
              ∧ ds.length = nensembles
              ∧ List.Forall₂ (fun r d => ∃ p, d = (buildOneCore R fac.fMTF r options p).1)
                  ((table.drop offset).take nensembles) ds)
            ∧ (fac.fMTF.initOk = true →
                ∃ tbl, (PerformEnsembleTestFromTable R fac table nensembles offset options).1
                    = .ok tbl
                  ∧ tbl.length = nensembles
                  ∧ List.Forall₂ (fun r row => row.parameters = r)
                      ((table.drop offset).take nensembles) tbl)) := by
  constructor
  · intro hlt
    exact ⟨by unfold BuildEnsemblesFromTable; rw [if_pos hlt],
      by unfold PerformEnsembleTestFromTable; rw [if_pos hlt]⟩
  · intro hge hrows
    have hnobad : ¬ ∃ r ∈ (table.drop offset).take nensembles,
        r.length ≠ fac.fMTF.parameterCount := by
      push_neg
      exact hrows
    have hlenused : ((table.drop offset).take nensembles).length = nensembles := by
      simp only [List.length_take, List.length_drop]
      omega
    constructor
    · refine ⟨(buildRowsLoop R fac.fMTF options
          ((table.drop offset).take nensembles) fac.fRandomPos).1, ?_, ?_,
        buildRowsLoop_rows R fac.fMTF options
          ((table.drop offset).take nensembles) fac.fRandomPos⟩
      · unfold BuildEnsemblesFromTable
        rw [if_neg (by omega), if_neg hnobad]
      · rw [buildRowsLoop_length]
        exact hlenused
    · intro hinit
      refine ⟨(runRowsLoop R options ((table.drop offset).take nensembles) fac).1, ?_, ?_,
        runRowsLoop_rows R options ((table.drop offset).take nensembles) fac⟩
      · unfold PerformEnsembleTestFromTable
        rw [if_neg (by omega), if_neg hnobad, if_pos hinit]
      · rw [runRowsLoop_length]
        exact hlenused

/-- Witness for C5, exercising both the insufficient-rows branch (50
ensembles from a 3-row table) and the success branch (2 ensembles from
rows 1..2 of the same table). -/
theorem buildEnsemblesFromTable_rows_witness :
    (BuildEnsemblesFromTable sampleRandom sampleFacility sampleTable 50 10 []
          = (.error .InsufficientRows, sampleFacility)
        ∧ PerformEnsembleTestFromTable sampleRandom sampleFacility sampleTable 50 10 []
            = (.error .InsufficientRows, sampleFacility))
      ∧ ((∃ ds, (BuildEnsemblesFromTable sampleRandom sampleFacility sampleTable 2 1 []).1
              = .ok ds
            ∧ ds.length = 2
            ∧ List.Forall₂
                (fun r d => ∃ p, d = (buildOneCore sampleRandom sampleFacility.fMTF r [] p).1)
                ((sampleTable.drop 1).take 2) ds)
          ∧ (sampleFacility.fMTF.initOk = true →
              ∃ tbl, (PerformEnsembleTestFromTable sampleRandom sampleFacility sampleTable 2 1 []).1
                  = .ok tbl
                ∧ tbl.length = 2
                ∧ List.Forall₂ (fun r row => row.parameters = r)
                    ((sampleTable.drop 1).take 2) tbl)) :=
  ⟨(buildEnsemblesFromTable_rows_semantics sampleRandom sampleFacility sampleTable
      50 10 []).1 (by decide),
    (buildEnsemblesFromTable_rows_semantics sampleRandom sampleFacility sampleTable
      2 1 []).2 (by decide) (by decide)⟩

/-- C6: passing a ParameterVector of the wrong length to any entry point
(`BuildEnsemble`, `BuildEnsembles`, `PerformEnsembleTest`, the two
table-driven variants, `PerformCalibrationAnalysis`) fails with
`ParameterCountMismatch` and returns the facility unchanged — in
particular the random stream position and the fit-call counter are
untouched, so no Fitter call and no random draw happened. -/
theorem wrongParameterCount_failFast (R : RandomSource) (fac : Facility)
    (parameters : List ℚ) (options : List String) (n start : ℕ)
    (table : List (List ℚ)) (index : ℤ) (values : List ℚ)
    (hlen : parameters.length ≠ fac.fMTF.parameterCount) :
    BuildEnsemble R fac parameters options = (.error .ParameterCountMismatch, fac)
      ∧ BuildEnsembles R fac parameters n options = (.error .ParameterCountMismatch, fac)
      ∧ PerformEnsembleTest R fac parameters n options
          = (.error .ParameterCountMismatch, fac)
      ∧ (start + n ≤ table.length →
          (∃ r ∈ (table.drop start).take n, r.length ≠ fac.fMTF.parameterCount) →
          BuildEnsemblesFromTable R fac table n start options
              = (.error .ParameterCountMismatch, fac)
            ∧ PerformEnsembleTestFromTable R fac table n start options
                = (.error .ParameterCountMismatch, fac))
      ∧ (0 ≤ index → index < (parameters.length : ℤ) →
          PerformCalibrationAnalysis R fac parameters index values n
            = (.error .ParameterCountMismatch, fac)) := by
  refine ⟨?_, ?_, ?_, ?_, ?_⟩
  · unfold BuildEnsemble
    rw [if_pos hlen]
  · unfold BuildEnsembles
    rw [if_pos hlen]
  · unfold PerformEnsembleTest
    rw [if_pos hlen]
  · intro hrows hbad
    constructor
    · unfold BuildEnsemblesFromTable
      rw [if_neg (by omega), if_pos hbad]
    · unfold PerformEnsembleTestFromTable
      rw [if_neg (by omega), if_pos hbad]
  · intro h0 h1
    unfold PerformCalibrationAnalysis
    rw [if_neg (by omega), if_pos hlen]

/-- Witness for C6 at a concrete wrong-length input. -/
theorem wrongParameterCount_failFast_witness :
    [(1 : ℚ)].length ≠ sampleFacility.fMTF.parameterCount
      ∧ (BuildEnsemble sampleRandom sampleFacility [1] []
            = (.error .ParameterCountMismatch, sampleFacility)
        ∧ BuildEnsembles sampleRandom sampleFacility [1] 2 []
            = (.error .ParameterCountMismatch, sampleFacility)
        ∧ PerformEnsembleTest sampleRandom sampleFacility [1] 2 []
            = (.error .ParameterCountMismatch, sampleFacility)
        ∧ (0 + 2 ≤ sampleTable.length →
            (∃ r ∈ (sampleTable.drop 0).take 2,
                r.length ≠ sampleFacility.fMTF.parameterCount) →
            BuildEnsemblesFromTable sampleRandom sampleFacility sampleTable 2 0 []
                = (.error .ParameterCountMismatch, sampleFacility)
              ∧ PerformEnsembleTestFromTable sampleRandom sampleFacility sampleTable 2 0 []
                  = (.error .ParameterCountMismatch, sampleFacility))
        ∧ ((0 : ℤ) ≤ 0 → (0 : ℤ) < ([(1 : ℚ)].length : ℤ) →
            PerformCalibrationAnalysis sampleRandom sampleFacility [1] 0 [] 2
              = (.error .ParameterCountMismatch, sampleFacility))) :=
  ⟨by decide,
    wrongParameterCount_failFast sampleRandom sampleFacility [1] [] 2 0 sampleTable 0 []
      (by decide)⟩

/-- C7: `PerformCalibrationAnalysis` fails with
`ParameterIndexOutOfRange` whenever the swept index lies outside
`[0, len(defaults))`, and it can return a result sequence only when the
index lies inside that interval. -/
theorem performCalibrationAnalysis_index_range (R : RandomSource) (fac : Facility)
    (defaults : List ℚ) (index : ℤ) (values : List ℚ) (nensembles : ℕ) :
    ((index < 0 ∨ (defaults.length : ℤ) ≤ index) →
        PerformCalibrationAnalysis R fac defaults index values nensembles
          = (.error .ParameterIndexOutOfRange, fac))
      ∧ (∀ L, (PerformCalibrationAnalysis R fac defaults index values nensembles).1
            = .ok L →
          0 ≤ index ∧ index < (defaults.length : ℤ)) := by
  constructor
  · intro hout
    unfold PerformCalibrationAnalysis
    rw [if_pos hout]
  · intro L hL
    by_contra hcon
    have hout : index < 0 ∨ (defaults.length : ℤ) ≤ index := by omega
    unfold PerformCalibrationAnalysis at hL
    rw [if_pos hout] at hL
    exact absurd hL (by simp)

/-- Witness for C7, exercising the out-of-range branch at index 5 of a
2-parameter default vector. -/
theorem performCalibrationAnalysis_index_range_witness :
    PerformCalibrationAnalysis sampleRandom sampleFacility [1, 2] 5 [0] 1
      = (.error .ParameterIndexOutOfRange, sampleFacility) :=
  (performCalibrationAnalysis_index_range sampleRandom sampleFacility [1, 2] 5 [0] 1).1
    (by decide)

/-- C9: option tokens outside the recognized set are ignored — for every
operation accepting options, an options list holding only unrecognized
tokens yields exactly the same result as the empty options list, and is
never reported as an error. -/
theorem unrecognized_options_ignored (R : RandomSource) (fac : Facility)
    (parameters : List ℚ) (table : List (List ℚ)) (n start : ℕ)
    (options : List String)
    (h : ∀ t ∈ options, t ∉ recognizedTokens) :
    BuildEnsemble R fac parameters options = BuildEnsemble R fac parameters []
      ∧ BuildEnsembles R fac parameters n options = BuildEnsembles R fac parameters n []
      ∧ BuildEnsemblesFromTable R fac table n start options
          = BuildEnsemblesFromTable R fac table n start []
      ∧ PerformEnsembleTest R fac parameters n options
          = PerformEnsembleTest R fac parameters n []
      ∧ PerformEnsembleTestFromTable R fac table n start options
          = PerformEnsembleTestFromTable R fac table n start []
      ∧ PerformSingleChannelAnalyses fac options = PerformSingleChannelAnalyses fac [] := by
  obtain ⟨hu, hf, hns, hmc⟩ := opts_unrecognized_false options h
  refine ⟨?_, ?_, ?_, ?_, ?_, ?_⟩
  · unfold BuildEnsemble
    rw [buildOneCore_opts R fac.fMTF parameters options hu]
  · unfold BuildEnsembles
    rw [buildRepeat_opts R fac.fMTF parameters options hu]
  · unfold BuildEnsemblesFromTable
    rw [buildRowsLoop_opts R fac.fMTF options hu]
  · unfold PerformEnsembleTest
    rw [runLoop_opts R parameters options hu hf]
  · unfold PerformEnsembleTestFromTable
    rw [runRowsLoop_opts R options hu hf]
  · unfold PerformSingleChannelAnalyses
    rw [hns, hmc, optNoSyst_nil, optMcmc_nil]

/-- Witness for C9 with an options list holding only the unrecognized
token "frobnicate". -/
theorem unrecognized_options_ignored_witness :
    (∀ t ∈ ["frobnicate"], t ∉ recognizedTokens)
      ∧ (BuildEnsemble sampleRandom sampleFacility [1, 2] ["frobnicate"]
            = BuildEnsemble sampleRandom sampleFacility [1, 2] []
        ∧ BuildEnsembles sampleRandom sampleFacility [1, 2] 2 ["frobnicate"]
            = BuildEnsembles sampleRandom sampleFacility [1, 2] 2 []
        ∧ BuildEnsemblesFromTable sampleRandom sampleFacility sampleTable 2 0 ["frobnicate"]
            = BuildEnsemblesFromTable sampleRandom sampleFacility sampleTable 2 0 []
        ∧ PerformEnsembleTest sampleRandom sampleFacility [1, 2] 2 ["frobnicate"]
            = PerformEnsembleTest sampleRandom sampleFacility [1, 2] 2 []
        ∧ PerformEnsembleTestFromTable sampleRandom sampleFacility sampleTable 2 0 ["frobnicate"]
            = PerformEnsembleTestFromTable sampleRandom sampleFacility sampleTable 2 0 []
        ∧ PerformSingleChannelAnalyses sampleFacility ["frobnicate"]
            = PerformSingleChannelAnalyses sampleFacility []) :=
  ⟨by decide,
    unrecognized_options_ignored sampleRandom sampleFacility [1, 2] sampleTable 2 0
      ["frobnicate"] (by decide)⟩
